import Mathlib

/-!
Shallow embedding of the Dify LiveKit plugin core (src/llm.py): the request
builder (LLM.chat) and the streaming event translator (LLMStream._run and
LLMStream._parse_event), together with proofs of the specification claims
about them.

Modelling conventions:
  - A decoded JSON event (the dict handed to _parse_event) is the structure
    Event; dict.get on a possibly missing key is an Option field, and
    dict.get with a default is Option.getD.
  - json.loads is a parameter decode : String → Option Event; none means the
    call raises, which line 186 of src/llm.py swallows.
  - Temperature values are only carried around, never computed with, so Rat
    stands in for Python float.
  - Mutable attributes of the stream object become explicit state records
    threaded through the translation functions.
-/

namespace DifyLLM

/-- The decoded "usage" object inside a message_end event's metadata
(src/llm.py lines 213-216). Keys may be missing; usage.get with default 0
is modelled by Option.getD below. -/
structure Usage where
  prompt_tokens : Option Nat := none
  completion_tokens : Option Nat := none
  deriving Repr, DecidableEq

/-- The decoded "metadata" object of an event; the "usage" key may be
missing (line 213 tests membership). -/
structure Metadata where
  usage : Option Usage := none
  deriving Repr, DecidableEq

/-- A decoded JSON event: the dict passed to LLMStream._parse_event. Each
field models event.get on the corresponding key, none when absent. -/
structure Event where
  event : Option String := none
  answer : Option String := none
  message_id : Option String := none
  metadata : Option Metadata := none
  deriving Repr, DecidableEq

/-- livekit llm.ChoiceDelta as used at lines 229-232: content and role. -/
structure ChoiceDelta where
  content : String
  role : String
  deriving Repr, DecidableEq

/-- livekit llm.Choice: wraps a delta (lines 228-233). -/
structure Choice where
  delta : ChoiceDelta
  deriving Repr, DecidableEq

/-- livekit llm.CompletionUsage as built at lines 194-198. -/
structure CompletionUsage where
  completion_tokens : Nat
  prompt_tokens : Nat
  total_tokens : Nat
  deriving Repr, DecidableEq

/-- livekit llm.ChatChunk: request_id, choices (empty when not given, as in
the final chunk at lines 191-200) and usage (none when not given, as in the
content chunks at lines 225-235). -/
structure ChatChunk where
  request_id : String
  choices : List Choice := []
  usage : Option CompletionUsage := none
  deriving Repr, DecidableEq

/-- The mutable per-stream attributes set in LLMStream.__init__ at lines
157-159: _request_id, _input_tokens, _output_tokens. -/
structure StreamState where
  request_id : String := ""
  input_tokens : Nat := 0
  output_tokens : Nat := 0
  deriving Repr, DecidableEq

/-- LLMStream._parse_event (src/llm.py lines 207-237) as a state
transformer: it may update the usage counters and returns the optional
chunk. Note that it never assigns _request_id. -/
def LLMStream.parseEvent (st : StreamState) (ev : Event) : StreamState × Option ChatChunk :=
  if ev.event = some ("message_end") then
    match ev.metadata with
    | some md =>
      match md.usage with
      | some u =>
        ({ st with input_tokens := u.prompt_tokens.getD 0,
                   output_tokens := u.completion_tokens.getD 0 }, none)
      | none => (st, none)
    | none => (st, none)
  else if ev.event = some ("agent_message") then
    let answer := ev.answer.getD ("")
    if answer = "" then (st, none)
    else
      (st, some { request_id := ev.message_id.getD (""),
                  choices := [{ delta := { content := answer, role := "assistant" } }] })
  else (st, none)

/-- State of the line loop in LLMStream._run: the stream attributes plus the
local variable retryable (line 162). -/
structure LoopState where
  pe : StreamState
  retryable : Bool
  deriving Repr, DecidableEq

/-- The ASCII whitespace characters stripped by Python str.strip() that can
occur around an SSE line (space, tab, newline, carriage return, vertical
tab, form feed). -/
def pySpace (c : Char) : Bool :=
  c = ' ' || c = '\t' || c = '\n' || c = '\r' || c = '\x0b' || c = '\x0c'

/-- Python str.strip() on the character list of a line: drop whitespace
from both ends. -/
def pyStrip (s : List Char) : List Char :=
  (((s.dropWhile pySpace).reverse).dropWhile pySpace).reverse

/-- The SSE marker "data: " that a payload line must start with (line 180
of src/llm.py); as a character list so that the check is structural. -/
def dataMarker : List Char := ("data: ").data

/-- One iteration of the loop at src/llm.py lines 176-188 on one raw line.
An empty raw line is skipped by the "if line" test at line 177; otherwise
the line is stripped, must start with "data: ", and the remainder after the
six marker characters (line[6:]) is JSON decoded. A decode failure (decode
= none, i.e. json.loads raises) or any other per-line exception is
swallowed by the except at line 186, leaving the state unchanged. When
_parse_event returns a chunk, it is sent on the channel and retryable is
set to False (lines 183-185). -/
def processLine (decode : String → Option Event) (st : LoopState) (raw : String) :
    LoopState × Option ChatChunk :=
  if raw = "" then (st, none)
  else
    let line := pyStrip raw.data
    if dataMarker.isPrefixOf line then
      match decode (String.mk (line.drop 6)) with
      | none => (st, none)
      | some ev =>
        match LLMStream.parseEvent st.pe ev with
        | (st1, some ch) => ({ pe := st1, retryable := false }, some ch)
        | (st1, none) => ({ st with pe := st1 }, none)
    else (st, none)

/-- The whole line loop: threads the state through the lines and collects
the chunks sent on the channel, in order. -/
def processLines (decode : String → Option Event) :
    LoopState → List String → LoopState × List ChatChunk
  | st, [] => (st, [])
  | st, raw :: rest =>
    let s1 := processLine decode st raw
    let s2 := processLines decode s1.1 rest
    (s2.1, s1.2.toList ++ s2.2)

/-- How the reading of the response body ends: exhausted normally, or an
aiohttp.ClientError raised by the transport while reading. -/
inductive ReadOutcome
  | ok
  | netErr
  deriving Repr, DecidableEq

/-- One run of a stream, as observed by _run: the initial response status,
the body text (read at line 169 when the status is not 200), the lines
successfully delivered by response.content before the read ends, and how
the read ends. -/
structure StreamInput where
  status : Nat
  body_text : String
  lines : List String
  read_end : ReadOutcome
  deriving Repr, DecidableEq

/-- The exception recorded as the cause (the "from e" at lines 203 and 205)
of the APIConnectionError that _run raises. APIStatusError (raised at lines
170-174) derives from livekit APIError, hence from Exception but not from
aiohttp.ClientError, so when it unwinds it is caught by the blanket
"except Exception" at line 204 and wrapped; a transport failure is an
aiohttp.ClientError caught at line 202 and wrapped the same way. -/
inductive ErrorCause
  | statusError (status : Nat) (body : String)
  | transportError
  deriving Repr, DecidableEq

/-- How a run terminates for the caller. _run can only ever surface an
APIConnectionError: every exception inside the try, including the
APIStatusError built for a non-success status, reaches one of the two
handlers at lines 202-205, both of which raise
APIConnectionError(retryable=retryable) from the original exception. -/
inductive RunResult
  | completed
  | connectionError (retryable : Bool) (cause : ErrorCause)
  deriving Repr, DecidableEq

/-- What a run delivers: the chunks sent on the event channel, in order, and
the terminal outcome. -/
structure RunOutput where
  chunks : List ChatChunk
  result : RunResult
  deriving Repr, DecidableEq

/-- The line loop of _run started from the freshly initialized stream state
(lines 157-159) with retryable = True (line 162). -/
def runLoop (decode : String → Option Event) (lines : List String) :
    LoopState × List ChatChunk :=
  processLines decode { pe := {}, retryable := true } lines

/-- LLMStream._run (src/llm.py lines 161-205). retryable starts True. A
non-200 status reads the body text and raises APIStatusError, which the
blanket handler wraps into APIConnectionError(retryable=True) before any
chunk is sent. Otherwise the lines are processed; if the body read fails
mid-stream the current retryable flag is wrapped with the transport error;
if the body is exhausted, the final usage chunk is sent (lines 190-200)
from the accumulated counters and the (never reassigned) _request_id. -/
def LLMStream.run (decode : String → Option Event) (inp : StreamInput) : RunOutput :=
  if inp.status ≠ 200 then
    { chunks := [],
      result := .connectionError true (.statusError inp.status inp.body_text) }
  else
    let s := runLoop decode inp.lines
    match inp.read_end with
    | .netErr => { chunks := s.2, result := .connectionError s.1.retryable .transportError }
    | .ok =>
      { chunks := s.2 ++
          [{ request_id := s.1.pe.request_id,
             usage := some { completion_tokens := s.1.pe.output_tokens,
                             prompt_tokens := s.1.pe.input_tokens,
                             total_tokens := s.1.pe.input_tokens + s.1.pe.output_tokens } }],
        result := .completed }

/-- A chat message of the livekit chat context: role and textual content. -/
structure ChatMessage where
  role : String
  content : String
  deriving Repr, DecidableEq

/-- The livekit chat context: the ordered list of prior messages. -/
structure ChatContext where
  messages : List ChatMessage
  deriving Repr, DecidableEq

/-- LLMOptions (src/llm.py lines 21-26): resolved construction options. -/
structure LLMOptions where
  api_key : String
  api_base : String
  temperature : Option Rat
  conversation_id : Option String
  deriving Repr, DecidableEq

/-- The JSON payload built at lines 83-92. The "inputs" key is the constant
empty map and is omitted from the model; the temperature key is present in
the payload exactly when the field below is some. -/
structure OutboundPayload where
  query : String
  response_mode : String
  conversation_id : String
  user : String
  temperature : Option Rat
  deriving Repr, DecidableEq

/-- The externally visible network actions of LLM.chat, in program order:
creating the aiohttp session (line 102) and issuing the POST (lines
105-109). -/
inductive ChatEffect
  | createSession
  | post (url : String) (payload : OutboundPayload)
  deriving Repr, DecidableEq

/-- The ValueError raised at line 80 when no user message exists in the
context (the ConfigurationError of the spec). -/
inductive ChatError
  | configurationError (msg : String)
  deriving Repr, DecidableEq

/-- LLM.chat (src/llm.py lines 62-117). Returns the list of network effects
performed, in order, paired with either the error or the POST payload.
sessionExists models self._session already being set (line 101). The
temperature override defaults to the instance option (lines 71-72); the
last user message is searched from the end (lines 75-78) and its absence
raises before any effect (lines 79-80, before lines 101-109). The Python
or-expression on self._opts.conversation_id at line 87 maps None (and the
empty string) to the empty string, which Option.getD matches. -/
def LLM.chat (opts : LLMOptions) (sessionExists : Bool) (chat_ctx : ChatContext)
    (temperature : Option Rat) : List ChatEffect × Except ChatError OutboundPayload :=
  let temp := match temperature with
    | none => opts.temperature
    | some t => some t
  match chat_ctx.messages.reverse.find? (fun m => m.role = "user") with
  | none => ([], .error (.configurationError ("No user message found in chat context")))
  | some last_message =>
    let payload : OutboundPayload :=
      { query := last_message.content,
        response_mode := "streaming",
        conversation_id := opts.conversation_id.getD (""),
        user := "user",
        temperature := temp }
    ((if sessionExists then [] else [ChatEffect.createSession]) ++
       [ChatEffect.post (opts.api_base ++ "/v1/chat-messages") payload],
     .ok payload)

/-- Spec-side view of one raw line: the event it contributes, none when the
line is empty, does not start with "data: " after trimming, or its JSON
remainder fails to decode. -/
def lineEvent (decode : String → Option Event) (raw : String) : Option Event :=
  if raw = "" then none
  else
    let line := pyStrip raw.data
    if dataMarker.isPrefixOf line then decode (String.mk (line.drop 6)) else none

/-- Spec-side view of one event: the (prompt, completion) pair it carries,
present exactly for a message_end event with metadata.usage present, with
missing token keys read as 0. -/
def usageOfEvent (ev : Event) : Option (Nat × Nat) :=
  if ev.event = some ("message_end") then
    match ev.metadata with
    | some md => md.usage.map (fun u => (u.prompt_tokens.getD 0, u.completion_tokens.getD 0))
    | none => none
  else none

/-- Spec-side last-write-wins usage over a list of events: the pair carried
by the last usage-bearing message_end event, or the default d when none
carries usage. -/
def lastUsage (d : Nat × Nat) : List Event → Nat × Nat
  | [] => d
  | ev :: evs =>
    match usageOfEvent ev with
    | some pc => lastUsage pc evs
    | none => lastUsage d evs

/-- A concrete decode table used by the concrete scenario theorems below.
The keys stand for the JSON payloads of the corresponding events; decoding
itself (json.loads) is external to the translated code, which takes decode
as a parameter, so the payload spelling is immaterial. -/
def decodeW : String → Option Event
  | "hi" =>
    some { event := some ("agent_message"), answer := some ("Hi"),
           message_id := some ("m1") }
  | "u1" =>
    some { event := some ("message_end"),
           metadata := some { usage := some { prompt_tokens := some 10,
                                              completion_tokens := some 5 } } }
  | "u2" =>
    some { event := some ("message_end"),
           metadata := some { usage := some { prompt_tokens := some 20,
                                              completion_tokens := some 8 } } }
  | _ => none

/-- Concrete options with no instance temperature default. -/
def opts0 : LLMOptions :=
  { api_key := "k", api_base := "https://api.dify.ai",
    temperature := none, conversation_id := none }

/-- Concrete options with instance temperature default 7. -/
def optsT : LLMOptions :=
  { api_key := "k", api_base := "https://api.dify.ai",
    temperature := some 7, conversation_id := none }

/-- A concrete chat context whose most recent user message has content q2. -/
def ctx1 : ChatContext :=
  { messages := [{ role := "system", content := "s" },
                 { role := "user", content := "q1" },
                 { role := "user", content := "q2" },
                 { role := "assistant", content := "a" }] }

/-! Helper lemmas about the translation functions. -/

theorem parseEvent_fst (st : StreamState) (ev : Event) :
    (LLMStream.parseEvent st ev).1 =
      match usageOfEvent ev with
      | some pc => { st with input_tokens := pc.1, output_tokens := pc.2 }
      | none => st := by
  rcases ev with ⟨e, a, mid, md⟩
  by_cases h1 : e = some ("message_end")
  · rcases md with _ | ⟨_ | u⟩ <;>
      simp [LLMStream.parseEvent, usageOfEvent, h1]
  · by_cases h2 : e = some ("agent_message")
    · by_cases h3 : a.getD ("") = "" <;>
        simp [LLMStream.parseEvent, usageOfEvent, h1, h2, h3]
    · simp [LLMStream.parseEvent, usageOfEvent, h1, h2]

theorem parseEvent_request_id (st : StreamState) (ev : Event) :
    (LLMStream.parseEvent st ev).1.request_id = st.request_id := by
  rw [parseEvent_fst]
  cases usageOfEvent ev <;> rfl

theorem parseEvent_chunk_usage (st : StreamState) (ev : Event) :
    ∀ c ∈ (LLMStream.parseEvent st ev).2, c.usage = none := by
  rcases ev with ⟨e, a, mid, md⟩
  by_cases h1 : e = some ("message_end")
  · rcases md with _ | ⟨_ | u⟩ <;>
      simp [LLMStream.parseEvent, h1]
  · by_cases h2 : e = some ("agent_message")
    · by_cases h3 : a.getD ("") = "" <;>
        simp [LLMStream.parseEvent, h1, h2, h3]
    · simp [LLMStream.parseEvent, h1, h2]

theorem processLine_eq (decode : String → Option Event) (st : LoopState) (raw : String) :
    processLine decode st raw =
      match lineEvent decode raw with
      | none => (st, none)
      | some ev =>
        match LLMStream.parseEvent st.pe ev with
        | (st1, some ch) => ({ pe := st1, retryable := false }, some ch)
        | (st1, none) => ({ st with pe := st1 }, none) := by
  unfold processLine lineEvent
  by_cases h1 : raw = ""
  · simp [h1]
  · simp only [h1, if_false, if_neg]
    by_cases h2 : dataMarker.isPrefixOf (pyStrip raw.data)
    · simp only [h2, if_true, if_pos]
    · simp [h2]

theorem processLine_malformed (decode : String → Option Event) (st : LoopState) (raw : String)
    (h : lineEvent decode raw = none) :
    processLine decode st raw = (st, none) := by
  rw [processLine_eq, h]

theorem processLine_pe (decode : String → Option Event) (st : LoopState) (raw : String) :
    (processLine decode st raw).1.pe =
      match lineEvent decode raw with
      | none => st.pe
      | some ev => (LLMStream.parseEvent st.pe ev).1 := by
  rw [processLine_eq]
  cases lineEvent decode raw with
  | none => rfl
  | some ev =>
    simp only
    rcases hp : LLMStream.parseEvent st.pe ev with ⟨st1, c⟩
    cases c <;> simp

theorem processLine_chunk (decode : String → Option Event) (st : LoopState) (raw : String) :
    (processLine decode st raw).2 =
      match lineEvent decode raw with
      | none => none
      | some ev => (LLMStream.parseEvent st.pe ev).2 := by
  rw [processLine_eq]
  cases lineEvent decode raw with
  | none => rfl
  | some ev =>
    simp only
    rcases hp : LLMStream.parseEvent st.pe ev with ⟨st1, c⟩
    cases c <;> simp

theorem processLine_retryable (decode : String → Option Event) (st : LoopState) (raw : String) :
    (processLine decode st raw).1.retryable =
      ((processLine decode st raw).2.isNone && st.retryable) := by
  rw [processLine_eq]
  cases lineEvent decode raw with
  | none => simp
  | some ev =>
    simp only
    rcases hp : LLMStream.parseEvent st.pe ev with ⟨st1, c⟩
    cases c <;> simp

theorem processLines_pe_tokens (decode : String → Option Event) (ls : List String)
    (st : LoopState) :
    ((processLines decode st ls).1.pe.input_tokens,
      (processLines decode st ls).1.pe.output_tokens) =
      lastUsage (st.pe.input_tokens, st.pe.output_tokens) (ls.filterMap (lineEvent decode)) := by
  induction ls generalizing st with
  | nil => simp [processLines, lastUsage]
  | cons raw rest ih =>
    simp only [processLines]
    rw [ih]
    cases hle : lineEvent decode raw with
    | none =>
      rw [processLine_pe, hle]
      simp [List.filterMap_cons, hle]
    | some ev =>
      rw [processLine_pe, hle]
      simp only [List.filterMap_cons, hle, lastUsage]
      rw [parseEvent_fst]
      cases hu : usageOfEvent ev with
      | none => simp
      | some pc => simp

theorem processLines_request_id (decode : String → Option Event) (ls : List String)
    (st : LoopState) :
    (processLines decode st ls).1.pe.request_id = st.pe.request_id := by
  induction ls generalizing st with
  | nil => rfl
  | cons raw rest ih =>
    simp only [processLines]
    rw [ih, processLine_pe]
    cases lineEvent decode raw with
    | none => rfl
    | some ev => exact parseEvent_request_id st.pe ev

theorem processLines_retryable (decode : String → Option Event) (ls : List String)
    (st : LoopState) :
    (processLines decode st ls).1.retryable =
      ((processLines decode st ls).2.isEmpty && st.retryable) := by
  induction ls generalizing st with
  | nil => simp [processLines]
  | cons raw rest ih =>
    simp only [processLines]
    rw [ih]
    rcases hc : (processLine decode st raw).2 with _ | ch
    · have hr := processLine_retryable decode st raw
      rw [hc] at hr
      simp only [hc, Option.toList, List.nil_append]
      rw [hr]
      simp
    · have hr := processLine_retryable decode st raw
      rw [hc] at hr
      simp only [hc, Option.toList, List.cons_append, List.nil_append]
      rw [hr]
      simp

theorem processLines_chunks_usage (decode : String → Option Event) (ls : List String)
    (st : LoopState) :
    ∀ c ∈ (processLines decode st ls).2, c.usage = none := by
  induction ls generalizing st with
  | nil => simp [processLines]
  | cons raw rest ih =>
    simp only [processLines]
    intro c hc
    rcases List.mem_append.mp hc with h | h
    · have h2 : c ∈ (processLine decode st raw).2 := by
        rcases hx : (processLine decode st raw).2 with _ | ch
        · rw [hx] at h; simp at h
        · rw [hx] at h
          simp at h
          simp [hx, h]
      rw [processLine_chunk] at h2
      cases hle : lineEvent decode raw with
      | none => rw [hle] at h2; simp at h2
      | some ev =>
        rw [hle] at h2
        exact parseEvent_chunk_usage st.pe ev c h2
    · exact ih _ c h

theorem processLines_malformed_cons (decode : String → Option Event) (bad : String)
    (h : lineEvent decode bad = none) (st : LoopState) (ls : List String) :
    processLines decode st (bad :: ls) = processLines decode st ls := by
  simp only [processLines]
  rw [processLine_malformed decode st bad h]
  simp

theorem usageOfEvent_eq_some (ev : Event) (pc : Nat × Nat)
    (h : usageOfEvent ev = some pc) :
    ev.event = some ("message_end") ∧ ∃ md u, ev.metadata = some md ∧ md.usage = some u := by
  unfold usageOfEvent at h
  by_cases h1 : ev.event = some ("message_end")
  · rcases hmd : ev.metadata with _ | md
    · rw [if_pos h1, hmd] at h
      simp at h
    · rcases hu : md.usage with _ | u
      · rw [if_pos h1, hmd] at h
        simp [hu] at h
      · exact ⟨h1, md, u, rfl, hu⟩
  · rw [if_neg h1] at h
    simp at h

theorem processLines_append (decode : String → Option Event) (xs ys : List String)
    (st : LoopState) :
    processLines decode st (xs ++ ys) =
      ((processLines decode (processLines decode st xs).1 ys).1,
        (processLines decode st xs).2 ++
          (processLines decode (processLines decode st xs).1 ys).2) := by
  induction xs generalizing st with
  | nil => simp [processLines]
  | cons x xs ih =>
    simp only [List.cons_append, processLines, List.append_eq]
    rw [ih]
    simp [List.append_assoc]

theorem run_ok (decode : String → Option Event) (inp : StreamInput)
    (hs : inp.status = 200) (he : inp.read_end = ReadOutcome.ok) :
    LLMStream.run decode inp =
      { chunks :=
          (runLoop decode inp.lines).2 ++
            [{ request_id := (runLoop decode inp.lines).1.pe.request_id,
               choices := [],
               usage := some
                 { completion_tokens := (runLoop decode inp.lines).1.pe.output_tokens,
                   prompt_tokens := (runLoop decode inp.lines).1.pe.input_tokens,
                   total_tokens :=
                     (runLoop decode inp.lines).1.pe.input_tokens +
                       (runLoop decode inp.lines).1.pe.output_tokens } }],
        result := RunResult.completed } := by
  simp [LLMStream.run, hs, he]

theorem run_netErr (decode : String → Option Event) (inp : StreamInput)
    (hs : inp.status = 200) (he : inp.read_end = ReadOutcome.netErr) :
    LLMStream.run decode inp =
      { chunks := (runLoop decode inp.lines).2,
        result := RunResult.connectionError (runLoop decode inp.lines).1.retryable
          ErrorCause.transportError } := by
  simp [LLMStream.run, hs, he]

/-! Claim theorems. -/

/-- C2 (counterexample): at a concrete non-200 initial response with status
401 and body text as in the spec scenario, the error surfaced to the caller
is the APIConnectionError raised by the blanket handler at lines 204-205 of
src/llm.py, carrying the APIStatusError only as its cause; the RunResult
type has no outcome for a directly propagated StatusError because both
except handlers of _run re-raise APIConnectionError. This refutes the claim
that the StatusError is propagated without being converted into another
error kind; the no-chunks-before part of the claim does hold. -/
theorem status_error_converted_counterexample :
    (LLMStream.run decodeW
      { status := 401, body_text := "\x7b\"error\":\"bad key\"\x7d", lines := [],
        read_end := ReadOutcome.ok }).result =
      RunResult.connectionError true
        (ErrorCause.statusError 401 ("\x7b\"error\":\"bad key\"\x7d")) ∧
    (LLMStream.run decodeW
      { status := 401, body_text := "\x7b\"error\":\"bad key\"\x7d", lines := [],
        read_end := ReadOutcome.ok }).chunks = [] := by
  exact ⟨rfl, rfl⟩

/-- C2 (amended): for every initial response whose status is not 200, _run
builds an APIStatusError from that status and the raw body text, and the
blanket except handler wraps it into an APIConnectionError marked retryable
that carries the status error as its cause; that connection error reaches
the caller, and no chunk is emitted before it. -/
theorem status_error_wrapped (decode : String → Option Event) (inp : StreamInput)
    (h : inp.status ≠ 200) :
    LLMStream.run decode inp =
      { chunks := [],
        result := RunResult.connectionError true
          (ErrorCause.statusError inp.status inp.body_text) } := by
  simp [LLMStream.run, h]

/-- Witness for the wrapped status error theorem at status 401. -/
theorem status_error_wrapped_witness :
    (401 : Nat) ≠ 200 ∧
    LLMStream.run decodeW
        { status := 401, body_text := "bad", lines := ["data: hi"],
          read_end := ReadOutcome.netErr } =
      { chunks := [],
        result := RunResult.connectionError true (ErrorCause.statusError 401 ("bad")) } :=
  ⟨by decide, status_error_wrapped decodeW _ (by decide)⟩

/-- C3 (counterexample): a concrete normally terminating stream in which an
agent_message event supplied message_id m1 (the emitted content chunk
carries it as its request id) still ends with a final usage chunk whose
request id is the empty string, not m1: _request_id is initialized at line
157 of src/llm.py and never assigned afterwards. -/
theorem final_request_id_counterexample :
    (LLMStream.run decodeW
      { status := 200, body_text := "", lines := ["data: hi"],
        read_end := ReadOutcome.ok }).chunks =
      [{ request_id := "m1",
         choices := [{ delta := { content := "Hi", role := "assistant" } }] },
       { request_id := "",
         usage := some { completion_tokens := 0, prompt_tokens := 0, total_tokens := 0 } }] ∧
    ("" : String) ≠ "m1" := by
  exact ⟨by decide, by decide⟩

/-- C3 (amended): for every stream that terminates normally, the final
usage chunk carries the empty string as its request id, whatever message
ids the events supplied: the stored _request_id is initialized empty and
never updated. -/
theorem final_request_id_always_empty (decode : String → Option Event) (inp : StreamInput)
    (hs : inp.status = 200) (he : inp.read_end = ReadOutcome.ok) :
    ∃ cs u, (LLMStream.run decode inp).chunks =
      cs ++ [{ request_id := "", choices := [], usage := some u }] := by
  have hrid : (runLoop decode inp.lines).1.pe.request_id = "" :=
    processLines_request_id decode inp.lines { pe := {}, retryable := true }
  refine ⟨(runLoop decode inp.lines).2,
    { completion_tokens := (runLoop decode inp.lines).1.pe.output_tokens,
      prompt_tokens := (runLoop decode inp.lines).1.pe.input_tokens,
      total_tokens := (runLoop decode inp.lines).1.pe.input_tokens +
                        (runLoop decode inp.lines).1.pe.output_tokens },
    ?_⟩
  rw [run_ok decode inp hs he, hrid]

/-- Witness for the empty final request id theorem at a concrete stream
whose single event carries message_id m1. -/
theorem final_request_id_always_empty_witness :
    ∃ cs u, (LLMStream.run decodeW
      { status := 200, body_text := "", lines := ["data: hi"],
        read_end := ReadOutcome.ok }).chunks =
      cs ++ [{ request_id := "", choices := [], usage := some u }] :=
  final_request_id_always_empty decodeW _ rfl rfl

/-- C5: a line that is empty, that does not begin with the marker after
trimming surrounding whitespace, or whose remainder after the marker fails
to JSON-decode, is skipped without raising: the run with the malformed line
inserted at any position has exactly the same chunks and outcome as the run
without it, so every other event is translated unaffected and the malformed
line never reaches the caller. -/
theorem malformed_line_skipped (decode : String → Option Event) (bad : String)
    (hbad : lineEvent decode bad = none) (status : Nat) (body : String)
    (pre post : List String) (rend : ReadOutcome) :
    LLMStream.run decode
        { status := status, body_text := body, lines := pre ++ bad :: post,
          read_end := rend } =
      LLMStream.run decode
        { status := status, body_text := body, lines := pre ++ post,
          read_end := rend } := by
  have key : runLoop decode (pre ++ bad :: post) = runLoop decode (pre ++ post) := by
    unfold runLoop
    rw [processLines_append, processLines_append, processLines_malformed_cons decode bad hbad]
  by_cases hs : status = 200
  · simp only [LLMStream.run, hs, ne_eq, not_true_eq_false, if_false]
    rw [key]
  · simp [LLMStream.run, hs]

/-- Witness for the malformed line theorem: a line whose payload fails to
decode is inserted between two well-formed lines without changing the run. -/
theorem malformed_line_skipped_witness :
    lineEvent decodeW ("data: zzz") = none ∧
    LLMStream.run decodeW
        { status := 200, body_text := "", lines := ["data: hi", "data: zzz", "data: u1"],
          read_end := ReadOutcome.ok } =
      LLMStream.run decodeW
        { status := 200, body_text := "", lines := ["data: hi", "data: u1"],
          read_end := ReadOutcome.ok } :=
  ⟨by decide,
    malformed_line_skipped decodeW ("data: zzz") (by decide) 200 ("") ["data: hi"] ["data: u1"]
      ReadOutcome.ok⟩

/-- C1: for every stream that terminates normally, exactly one final chunk
is emitted after all content chunks (it alone carries a usage summary); its
prompt and completion token counts equal the values carried by the last
usage-bearing message_end event (successive message_end events overwrite
rather than accumulate, and both counts are zero when no message_end
carried usage), its total is their sum, and this is independent of how many
agent_message chunks preceded it. -/
theorem final_chunk_reports_last_usage (decode : String → Option Event) (inp : StreamInput)
    (hs : inp.status = 200) (he : inp.read_end = ReadOutcome.ok) :
    ∃ rid cs,
      (LLMStream.run decode inp).chunks = cs ++
        [{ request_id := rid, choices := [],
           usage := some
             { completion_tokens :=
                 (lastUsage (0, 0) (inp.lines.filterMap (lineEvent decode))).2,
               prompt_tokens :=
                 (lastUsage (0, 0) (inp.lines.filterMap (lineEvent decode))).1,
               total_tokens :=
                 (lastUsage (0, 0) (inp.lines.filterMap (lineEvent decode))).1 +
                   (lastUsage (0, 0) (inp.lines.filterMap (lineEvent decode))).2 } }] ∧
      ∀ c ∈ cs, c.usage = none := by
  have ht := processLines_pe_tokens decode inp.lines { pe := {}, retryable := true }
  have h1 : (runLoop decode inp.lines).1.pe.input_tokens =
      (lastUsage (0, 0) (inp.lines.filterMap (lineEvent decode))).1 := congrArg Prod.fst ht
  have h2 : (runLoop decode inp.lines).1.pe.output_tokens =
      (lastUsage (0, 0) (inp.lines.filterMap (lineEvent decode))).2 := congrArg Prod.snd ht
  refine ⟨(runLoop decode inp.lines).1.pe.request_id, (runLoop decode inp.lines).2, ?_,
    processLines_chunks_usage decode inp.lines { pe := {}, retryable := true }⟩
  rw [run_ok decode inp hs he, h1, h2]

/-- Witness for the final usage claim at the spec scenario: usage events
(10,5) then (20,8) after one content chunk give a final chunk reporting
prompt 20, completion 8, total 28. -/
theorem final_chunk_reports_last_usage_witness :
    ∃ rid cs,
      (LLMStream.run decodeW
        { status := 200, body_text := "", lines := ["data: hi", "data: u1", "data: u2"],
          read_end := ReadOutcome.ok }).chunks = cs ++
        [{ request_id := rid, choices := [],
           usage := some { completion_tokens := 8, prompt_tokens := 20,
                           total_tokens := 28 } }] ∧
      ∀ c ∈ cs, c.usage = none :=
  final_chunk_reports_last_usage decodeW
    { status := 200, body_text := "", lines := ["data: hi", "data: u1", "data: u2"],
      read_end := ReadOutcome.ok } rfl rfl

/-- C6: every connection error surfaced by a run carries retryable = true
exactly when no content chunk had been delivered at the time of the
failure. Since retryable is initialized True (line 162), set to False only
right after a chunk is delivered (line 185) and never set back, once a
chunk has been delivered every error raised for the rest of the stream is
non-retryable. -/
theorem connection_error_retryable_iff (decode : String → Option Event) (inp : StreamInput)
    (r : Bool) (c : ErrorCause)
    (h : (LLMStream.run decode inp).result = RunResult.connectionError r c) :
    (r = true ↔ (LLMStream.run decode inp).chunks = []) := by
  by_cases hs : inp.status = 200
  · cases hre : inp.read_end with
    | ok =>
      rw [run_ok decode inp hs hre] at h
      simp at h
    | netErr =>
      rw [run_netErr decode inp hs hre] at h ⊢
      simp only [RunResult.connectionError.injEq] at h
      have hretr : (runLoop decode inp.lines).1.retryable =
          ((runLoop decode inp.lines).2.isEmpty && true) :=
        processLines_retryable decode inp.lines { pe := {}, retryable := true }
      rw [← h.1, hretr]
      simp [List.isEmpty_iff]
  · rw [status_error_wrapped decode inp hs] at h ⊢
    simp only [RunResult.connectionError.injEq] at h
    simp [← h.1]

/-- Witness for the retryable flag claim: a transport failure after one
delivered content chunk is reported non-retryable. -/
theorem connection_error_retryable_iff_witness :
    (LLMStream.run decodeW
        { status := 200, body_text := "", lines := ["data: hi"],
          read_end := ReadOutcome.netErr }).result =
      RunResult.connectionError false ErrorCause.transportError ∧
    ((false = true) ↔
      (LLMStream.run decodeW
        { status := 200, body_text := "", lines := ["data: hi"],
          read_end := ReadOutcome.netErr }).chunks = []) :=
  ⟨by decide,
    connection_error_retryable_iff decodeW
      { status := 200, body_text := "", lines := ["data: hi"],
        read_end := ReadOutcome.netErr } false ErrorCause.transportError (by decide)⟩

/-- C7: an agent_message event with absent or empty answer produces no
chunk; with non-empty answer it produces exactly one chunk whose request id
is the event's message_id (empty if absent) and whose single delta has role
assistant and content equal to the answer (as in the spec scenario where a
decoded event with answer Hi and message_id m1 yields that chunk); an event
whose discriminator is neither agent_message nor message_end produces no
chunk. -/
theorem agent_message_chunk (st : StreamState) (ev : Event) :
    ((ev.event = some ("agent_message") ∧ ev.answer.getD ("") = "") →
      (LLMStream.parseEvent st ev).2 = none) ∧
    ((ev.event = some ("agent_message") ∧ ev.answer.getD ("") ≠ "") →
      (LLMStream.parseEvent st ev).2 =
        some { request_id := ev.message_id.getD (""),
               choices := [{ delta := { content := ev.answer.getD (""),
                                        role := "assistant" } }],
               usage := none }) ∧
    ((ev.event ≠ some ("agent_message") ∧ ev.event ≠ some ("message_end")) →
      (LLMStream.parseEvent st ev).2 = none) := by
  refine ⟨?_, ?_, ?_⟩
  · rintro ⟨h1, h2⟩
    simp [LLMStream.parseEvent, h1, h2]
  · rintro ⟨h1, h2⟩
    simp [LLMStream.parseEvent, h1, h2]
  · rintro ⟨h1, h2⟩
    simp [LLMStream.parseEvent, h1, h2]

/-- Witness for the agent_message claim at the spec scenario event with
answer Hi and message_id m1. -/
theorem agent_message_chunk_witness :
    ((Event.mk (some ("agent_message")) (some ("Hi")) (some ("m1")) none).event =
        some ("agent_message") ∧
      (Event.mk (some ("agent_message")) (some ("Hi")) (some ("m1")) none).answer.getD ("")
        ≠ "") ∧
    (LLMStream.parseEvent {}
        (Event.mk (some ("agent_message")) (some ("Hi")) (some ("m1")) none)).2 =
      some { request_id := "m1",
             choices := [{ delta := { content := "Hi", role := "assistant" } }],
             usage := none } :=
  ⟨⟨rfl, by decide⟩,
    (agent_message_chunk {}
        (Event.mk (some ("agent_message")) (some ("Hi")) (some ("m1")) none)).2.1
      ⟨rfl, by decide⟩⟩

/-- C9: for a message_end event whose metadata.usage is present, both
counters are overwritten with usage.get values, so a missing prompt_tokens
(respectively completion_tokens) key overwrites the counter with 0,
discarding any value an earlier message_end had set; only a message_end
with no metadata key, or no usage key inside metadata, leaves both counters
(indeed the whole state) unchanged. -/
theorem message_end_usage_overwrite (st : StreamState) (ev : Event)
    (h : ev.event = some ("message_end")) :
    (∀ md u, ev.metadata = some md → md.usage = some u →
      (LLMStream.parseEvent st ev).1.input_tokens = u.prompt_tokens.getD 0 ∧
      (LLMStream.parseEvent st ev).1.output_tokens = u.completion_tokens.getD 0) ∧
    ((ev.metadata = none ∨ ∃ md, ev.metadata = some md ∧ md.usage = none) →
      (LLMStream.parseEvent st ev).1 = st) := by
  constructor
  · intro md u hmd hu
    simp [LLMStream.parseEvent, h, hmd, hu]
  · rintro (hmd | ⟨md, hmd, hu⟩)
    · simp [LLMStream.parseEvent, h, hmd]
    · simp [LLMStream.parseEvent, h, hmd, hu]

/-- Witness for the usage overwrite claim: starting from counters (10,5), a
message_end with usage lacking prompt_tokens and carrying completion_tokens
7 overwrites to (0,7); one with metadata but no usage leaves (10,5). -/
theorem message_end_usage_overwrite_witness :
    ((LLMStream.parseEvent { request_id := "", input_tokens := 10, output_tokens := 5 }
        (Event.mk (some ("message_end")) none none
          (some { usage := some { prompt_tokens := none,
                                  completion_tokens := some 7 } }))).1.input_tokens = 0 ∧
      (LLMStream.parseEvent { request_id := "", input_tokens := 10, output_tokens := 5 }
        (Event.mk (some ("message_end")) none none
          (some { usage := some { prompt_tokens := none,
                                  completion_tokens := some 7 } }))).1.output_tokens = 7) ∧
    (LLMStream.parseEvent { request_id := "", input_tokens := 10, output_tokens := 5 }
        (Event.mk (some ("message_end")) none none (some { usage := none }))).1 =
      { request_id := "", input_tokens := 10, output_tokens := 5 } :=
  ⟨(message_end_usage_overwrite
        { request_id := "", input_tokens := 10, output_tokens := 5 }
        (Event.mk (some ("message_end")) none none
          (some { usage := some { prompt_tokens := none, completion_tokens := some 7 } }))
        rfl).1
      { usage := some { prompt_tokens := none, completion_tokens := some 7 } }
      { prompt_tokens := none, completion_tokens := some 7 } rfl rfl,
    (message_end_usage_overwrite
        { request_id := "", input_tokens := 10, output_tokens := 5 }
        (Event.mk (some ("message_end")) none none (some { usage := none })) rfl).2
      (Or.inr ⟨{ usage := none }, rfl, rfl⟩)⟩

/-- C10: _parse_event changes the usage counters only for a message_end
event with metadata.usage present; an agent_message or unknown-discriminator
event leaves the whole state unchanged; and a message_end event leaves the
stored request id unchanged and produces no chunk. -/
theorem parse_event_frame (st : StreamState) (ev : Event) :
    (((LLMStream.parseEvent st ev).1.input_tokens ≠ st.input_tokens ∨
      (LLMStream.parseEvent st ev).1.output_tokens ≠ st.output_tokens) →
      ev.event = some ("message_end") ∧
        ∃ md u, ev.metadata = some md ∧ md.usage = some u) ∧
    ((ev.event = some ("agent_message") ∨
      (ev.event ≠ some ("agent_message") ∧ ev.event ≠ some ("message_end"))) →
      (LLMStream.parseEvent st ev).1 = st) ∧
    (ev.event = some ("message_end") →
      (LLMStream.parseEvent st ev).1.request_id = st.request_id ∧
      (LLMStream.parseEvent st ev).2 = none) := by
  refine ⟨?_, ?_, ?_⟩
  · intro hne
    cases hu : usageOfEvent ev with
    | none =>
      exfalso
      have := parseEvent_fst st ev
      rw [hu] at this
      rw [this] at hne
      rcases hne with hne | hne <;> exact hne rfl
    | some pc => exact usageOfEvent_eq_some ev pc hu
  · rintro (h1 | ⟨h1, h2⟩)
    · have hu : usageOfEvent ev = none := by simp [usageOfEvent, h1]
      have := parseEvent_fst st ev
      rw [hu] at this
      exact this
    · have hu : usageOfEvent ev = none := by simp [usageOfEvent, h2]
      have := parseEvent_fst st ev
      rw [hu] at this
      exact this
  · intro h1
    refine ⟨parseEvent_request_id st ev, ?_⟩
    rcases ev with ⟨e, a, mid, md⟩
    have h2 : e = some ("message_end") := h1
    rcases md with _ | md
    · simp [LLMStream.parseEvent, h2]
    · rcases hmu : md.usage with _ | u <;> simp [LLMStream.parseEvent, h2, hmu]

/-- Witness for the frame claim: an agent_message event leaves the state
(10,5), and a message_end event leaves the request id and yields no chunk. -/
theorem parse_event_frame_witness :
    (LLMStream.parseEvent { request_id := "", input_tokens := 10, output_tokens := 5 }
        (Event.mk (some ("agent_message")) (some ("Hi")) (some ("m1")) none)).1 =
      { request_id := "", input_tokens := 10, output_tokens := 5 } ∧
    ((LLMStream.parseEvent { request_id := "", input_tokens := 10, output_tokens := 5 }
        (Event.mk (some ("message_end")) none none none)).1.request_id = "" ∧
      (LLMStream.parseEvent { request_id := "", input_tokens := 10, output_tokens := 5 }
        (Event.mk (some ("message_end")) none none none)).2 = none) :=
  ⟨(parse_event_frame { request_id := "", input_tokens := 10, output_tokens := 5 }
        (Event.mk (some ("agent_message")) (some ("Hi")) (some ("m1")) none)).2.1
      (Or.inl rfl),
    (parse_event_frame { request_id := "", input_tokens := 10, output_tokens := 5 }
        (Event.mk (some ("message_end")) none none none)).2.2 rfl⟩

/-- C4: for every chat context with no user-role message, chat fails with
the ConfigurationError and performs no network effect at all (no session is
created and no POST is issued: the effect list is empty); for a context
with at least one user message, the outbound query equals the content of
the most recent user-role message. -/
theorem chat_requires_user_message (opts : LLMOptions) (sessionExists : Bool)
    (ctx : ChatContext) (ov : Option Rat) :
    ((∀ m ∈ ctx.messages, m.role ≠ "user") →
      LLM.chat opts sessionExists ctx ov =
        ([], .error (.configurationError ("No user message found in chat context")))) ∧
    (∀ pre m post, ctx.messages = pre ++ m :: post → m.role = "user" →
      (∀ m2 ∈ post, m2.role ≠ "user") →
      ∃ effs p, LLM.chat opts sessionExists ctx ov = (effs, .ok p) ∧
        p.query = m.content) := by
  constructor
  · intro h
    have hf : ctx.messages.reverse.find? (fun m => m.role = "user") = none := by
      rw [List.find?_eq_none]
      intro x hx
      simp only [decide_eq_true_eq]
      exact h x (List.mem_reverse.mp hx)
    unfold LLM.chat
    rw [hf]
  · intro pre m post hctx hm hpost
    have hf : ctx.messages.reverse.find? (fun x => x.role = "user") = some m := by
      rw [hctx]
      simp only [List.reverse_append, List.reverse_cons]
      rw [List.find?_append, List.find?_append]
      have h1 : post.reverse.find? (fun x => decide (x.role = "user")) = none := by
        rw [List.find?_eq_none]
        intro x hx
        simp only [decide_eq_true_eq]
        exact hpost x (List.mem_reverse.mp hx)
      rw [h1]
      simp [hm]
    unfold LLM.chat
    rw [hf]
    exact ⟨_, _, rfl, rfl⟩

/-- Witness for the user message claim: a context with only an assistant
message fails with the ConfigurationError and an empty effect list, and the
concrete context ctx1 yields query q2, its most recent user content. -/
theorem chat_requires_user_message_witness :
    (LLM.chat opts0 false { messages := [{ role := "assistant", content := "a" }] } none =
      ([], .error (.configurationError ("No user message found in chat context")))) ∧
    ∃ effs p, LLM.chat opts0 false ctx1 none = (effs, .ok p) ∧ p.query = "q2" :=
  ⟨(chat_requires_user_message opts0 false
        { messages := [{ role := "assistant", content := "a" }] } none).1 (by decide),
    (chat_requires_user_message opts0 false ctx1 none).2
      [{ role := "system", content := "s" }, { role := "user", content := "q1" }]
      { role := "user", content := "q2" }
      [{ role := "assistant", content := "a" }] rfl rfl (by decide)⟩

/-- C8: whenever chat succeeds, the temperature in the outbound payload is
resolved as the explicit per-call override when given, otherwise the
instance default from construction, otherwise none, i.e. the key is
omitted from the payload entirely. -/
theorem chat_temperature_resolution (opts : LLMOptions) (sessionExists : Bool)
    (ctx : ChatContext) (ov : Option Rat)
    (h : ∃ m ∈ ctx.messages, m.role = "user") :
    ∃ effs p, LLM.chat opts sessionExists ctx ov = (effs, .ok p) ∧
      p.temperature = (match ov with
        | some t => some t
        | none => opts.temperature) := by
  have hf : (ctx.messages.reverse.find? (fun m => m.role = "user")).isSome := by
    rw [List.find?_isSome]
    obtain ⟨m, hm, hr⟩ := h
    exact ⟨m, List.mem_reverse.mpr hm, by simp [hr]⟩
  obtain ⟨m, hm⟩ := Option.isSome_iff_exists.mp hf
  unfold LLM.chat
  rw [hm]
  cases ov <;> exact ⟨_, _, rfl, rfl⟩

/-- Witness for temperature resolution: override 5 wins over instance
default 7; with no override the default 7 applies; with neither, the
payload carries no temperature. -/
theorem chat_temperature_resolution_witness :
    (∃ m ∈ ctx1.messages, m.role = "user") ∧
    (∃ effs p, LLM.chat optsT false ctx1 (some 5) = (effs, .ok p) ∧
      p.temperature = some 5) ∧
    (∃ effs p, LLM.chat optsT false ctx1 none = (effs, .ok p) ∧
      p.temperature = some 7) ∧
    (∃ effs p, LLM.chat opts0 false ctx1 none = (effs, .ok p) ∧
      p.temperature = none) :=
  ⟨⟨{ role := "user", content := "q1" }, by decide, rfl⟩,
    chat_temperature_resolution optsT false ctx1 (some 5)
      ⟨{ role := "user", content := "q1" }, by decide, rfl⟩,
    chat_temperature_resolution optsT false ctx1 none
      ⟨{ role := "user", content := "q1" }, by decide, rfl⟩,
    chat_temperature_resolution opts0 false ctx1 none
      ⟨{ role := "user", content := "q1" }, by decide, rfl⟩⟩

end DifyLLM
